import Mathlib

/-!
Verification of the offline-first synchronization core of the `rx`
repository: the sync orchestrator (`AppComponent.checkSyncLog` with its
error classification helpers) and the recurring task scheduler
(`CronService`).  Every definition is a shallow embedding of the
corresponding TypeScript source; machine time is modelled as natural
numbers of milliseconds, JavaScript `Map` as an association list, browser
timers as a pool of live timer ids.  The tick's asynchronous per-record
pipelines are embedded twice: as a sequential fold (`checkSyncLog`), used
where the property at issue is invariant under the scheduling of the
pipelines, and as an explicit interleaving machine (`stepTask`) whose
schedules expose the failure handler's two await points — the dedup check
and the guarded insert — between which other handlers may run.
-/

namespace Rx

/-! ## String helpers (JavaScript `toLowerCase` / `includes`) -/

/-- Character-wise lower-casing, the part of JavaScript
`String.prototype.toLowerCase` relevant to the ASCII signatures the
classifier matches on. -/
def lowerStr (s : String) : String := String.mk (s.data.map Char.toLower)

/-- JavaScript `String.prototype.includes`: `pat` occurs as a contiguous
substring of `hay`. -/
def strContains (hay pat : String) : Bool :=
  (hay.data.tails).any (fun t => pat.data.isPrefixOf t)

/-! ## Error classification (`AppComponent.getErrorType` / `getErrorCode` /
`getErrorMessage`, app.component.ts lines 164-227) -/

/-- `getErrorType`: classify a failed sync attempt from `navigator.onLine`
and the error's message (the source lower-cases `error?.message` and
substring-matches it; a missing message is the empty string). -/
def getErrorType (online : Bool) (message : String) : String :=
  let em := lowerStr message
  if !online || strContains em "network" || strContains em "failed to fetch" then
    "NetworkOfflineError"
  else if strContains em "timeout" then "TimeoutError"
  else if strContains em "400" || strContains em "bad request" then "BadRequestError"
  else if strContains em "401" || strContains em "unauthorized" then "UnauthorizedError"
  else if strContains em "403" || strContains em "forbidden" then "ForbiddenError"
  else if strContains em "404" || strContains em "not found" then "NotFoundError"
  else if strContains em "500" || strContains em "internal server" then "ServerError"
  else "SyncError"

/-- `getErrorCode`: the fixed errorType-to-code lookup table. -/
def getErrorCode (errorType : String) : String :=
  if errorType = "NetworkOfflineError" then "SYNC_NET_001"
  else if errorType = "TimeoutError" then "SYNC_TMO_001"
  else if errorType = "BadRequestError" then "SYNC_REQ_400"
  else if errorType = "UnauthorizedError" then "SYNC_AUT_401"
  else if errorType = "ForbiddenError" then "SYNC_FOR_403"
  else if errorType = "NotFoundError" then "SYNC_NTF_404"
  else if errorType = "ServerError" then "SYNC_SRV_500"
  else if errorType = "SyncError" then "SYNC_ERR_001"
  else "SYNC_UNK_999"

/-- `getErrorMessage`: the user-facing message per errorType (the Thai text
of the source, with the generic sync-error message interpolating the
original error message). -/
def getErrorMessage (errMsg errorType : String) : String :=
  if errorType = "NetworkOfflineError" then
    "ไม่สามารถเชื่อมต่อเครือข่าย กรุณาตรวจสอบการเชื่อมต่ออินเทอร์เน็ต"
  else if errorType = "TimeoutError" then "การเชื่อมต่อหมดเวลา กรุณาลองใหม่อีกครั้ง"
  else if errorType = "BadRequestError" then "ข้อมูลที่ส่งไม่ถูกต้อง กรุณาตรวจสอบข้อมูล"
  else if errorType = "UnauthorizedError" then "ไม่มีสิทธิ์เข้าถึง กรุณาเข้าสู่ระบบใหม่"
  else if errorType = "ForbiddenError" then "ไม่อนุญาตให้เข้าถึง กรุณาติดต่อผู้ดูแลระบบ"
  else if errorType = "NotFoundError" then "ไม่พบข้อมูลที่ต้องการ"
  else if errorType = "ServerError" then "เซิร์ฟเวอร์เกิดข้อผิดพลาด กรุณาลองใหม่ภายหลัง"
  else "การซิงค์ล้มเหลว: " ++ (if errMsg = "" then "Unknown error" else errMsg)

/-- The closed set of kinds `getErrorType` can return (the §7 taxonomy). -/
def errorKinds : List String :=
  ["NetworkOfflineError", "TimeoutError", "BadRequestError", "UnauthorizedError",
   "ForbiddenError", "NotFoundError", "ServerError", "SyncError"]

/-- The §7 taxonomy as an ordered trigger table (first matching row wins),
written down from the spec's table for comparison with `getErrorType`. -/
def errorTriggerTable (online : Bool) (em : String) : List (String × Bool) :=
  [("NetworkOfflineError",
      !online || strContains em "network" || strContains em "failed to fetch"),
   ("TimeoutError", strContains em "timeout"),
   ("BadRequestError", strContains em "400" || strContains em "bad request"),
   ("UnauthorizedError", strContains em "401" || strContains em "unauthorized"),
   ("ForbiddenError", strContains em "403" || strContains em "forbidden"),
   ("NotFoundError", strContains em "404" || strContains em "not found"),
   ("ServerError", strContains em "500" || strContains em "internal server")]

/-- Spec-side classification: first matching row of the §7 table, with
`SyncError` as the default when nothing matches. -/
def classifyBySpec (online : Bool) (message : String) : String :=
  let em := lowerStr message
  match (errorTriggerTable online em).find? (fun p => p.2) with
  | some p => p.1
  | none => "SyncError"

/-! ## Records and the local store -/

/-- An exception log (DiagnosticRecord) as stored in the Record Store.
`timestamp` is `none` when missing or unparsable. -/
structure ExceptionLog where
  id : String
  message : String
  serviceName : String
  errorType : String
  code : String
  timestamp : Option Nat
  parkingDoorNumber : String
  isSynced : Bool
deriving DecidableEq, Repr

/-- The request sent to the remote gateway's create-diagnostic operation. -/
structure ExceptionLogRequest where
  id : String
  message : String
  serviceName : String
  errorType : String
  code : String
  timestamp : Nat
  parkingDoorNumber : String
  isSynced : Bool
deriving DecidableEq, Repr

/-- The `logRequest` built in the loop of `checkSyncLog`: each field falls
back to a default when falsy, and `toISOString` defensively substitutes the
current time for a missing or invalid timestamp. -/
def mkLogRequest (now : Nat) (log : ExceptionLog) : ExceptionLogRequest :=
  { id := log.id,
    message := if log.message = "" then "Unknown error" else log.message,
    serviceName := if log.serviceName = "" then "UnknownService" else log.serviceName,
    errorType := if log.errorType = "" then "Error" else log.errorType,
    code := if log.code = "" then "UNKNOWN" else log.code,
    timestamp := log.timestamp.getD now,
    parkingDoorNumber :=
      if log.parkingDoorNumber = "" then "N/A" else log.parkingDoorNumber,
    isSynced := false }

/-- `storageFacade.getUnsyncedExceptionLogs`: all stored logs with
`isSynced = false`. -/
def unsyncedLogs (store : List ExceptionLog) : List ExceptionLog :=
  store.filter (fun l => !l.isSynced)

/-- `storageFacade.deleteExceptionLog`: remove the record with the given id. -/
def deleteLog (store : List ExceptionLog) (i : String) : List ExceptionLog :=
  store.filter (fun l => !(l.id == i))

/-- `hasSimilarError`: does an unsynced log with the same
(errorType, code, serviceName) triple already exist? -/
def hasSimilarError (store : List ExceptionLog) (errorType code serviceName : String) : Bool :=
  (unsyncedLogs store).any
    (fun l => l.errorType == errorType && l.code == code && l.serviceName == serviceName)

/-- The generated id of a synthesized sync-failure log:
`sync-error-${errorType.toLowerCase()}-${Date.now()}`. -/
def syncErrorId (errorType : String) (now : Nat) : String :=
  "sync-error-" ++ lowerStr errorType ++ "-" ++ toString now

/-- The new exception log `checkSyncLog` creates when a send fails and no
similar error exists yet. -/
def mkSyncErrorLog (errorType code doorNumber errMsg : String) (now : Nat) : ExceptionLog :=
  { id := syncErrorId errorType now,
    message := getErrorMessage errMsg errorType,
    timestamp := some now,
    isSynced := false,
    serviceName := "AppComponent",
    errorType := errorType,
    code := code,
    parkingDoorNumber := if doorNumber = "" then "N/A" else doorNumber }

/-- Outcome routing for one record of the tick (the `tap`/`catchError`
pipeline): on success (`result = none`) the record is deleted from the
store; on failure (`result = some errMsg`) the error is classified, and a
new sync-failure log is inserted unless an unsynced log with the same
(errorType, code, "AppComponent") triple already exists. -/
def processLog (online : Bool) (now : Nat) (log : ExceptionLog)
    (result : Option String) (store : List ExceptionLog) : List ExceptionLog :=
  match result with
  | none => deleteLog store log.id
  | some errMsg =>
    let errorType := getErrorType online errMsg
    let errorCode := getErrorCode errorType
    if hasSimilarError store errorType errorCode "AppComponent" then store
    else store ++
      [mkSyncErrorLog errorType errorCode log.parkingDoorNumber errMsg now]

/-- One step of the per-record loop: call the gateway (counting the call)
and route the outcome into the store. -/
def syncStep (online : Bool) (now : Nat) (gateway : ExceptionLogRequest → Option String)
    (acc : List ExceptionLog × Nat) (log : ExceptionLog) : List ExceptionLog × Nat :=
  (processLog online now log (gateway (mkLogRequest now log)) acc.1, acc.2 + 1)

/-- `AppComponent.checkSyncLog`, one sync tick: read the unsynced logs; if
none, stop; otherwise send each one to the remote gateway and route each
outcome back into the store.  Returns the resulting store and the number of
remote gateway calls made.  `online` is `navigator.onLine` during the tick,
`gateway r = none` means the create call succeeded, `some errMsg` that it
rejected with that error message. -/
def checkSyncLog (online : Bool) (now : Nat)
    (gateway : ExceptionLogRequest → Option String)
    (store : List ExceptionLog) : List ExceptionLog × Nat :=
  if (unsyncedLogs store).isEmpty then (store, 0)
  else (unsyncedLogs store).foldl (syncStep online now gateway) (store, 0)

/-- The environment of one scheduled tick: connectivity, current time and
the remote gateway's behaviour during the tick. -/
structure TickEnv where
  online : Bool
  now : Nat
  gateway : ExceptionLogRequest → Option String

/-- Run a sequence of sync ticks against the store. -/
def runSyncTicks (ticks : List TickEnv) (store : List ExceptionLog) : List ExceptionLog :=
  ticks.foldl (fun st t => (checkSyncLog t.online t.now t.gateway st).1) store

/-- Number of unsynced logs with a given (errorType, code, serviceName)
triple — the dedup key of §4.2. -/
def tripleCount (store : List ExceptionLog) (errorType code serviceName : String) : Nat :=
  ((unsyncedLogs store).filter
    (fun l => l.errorType == errorType && l.code == code && l.serviceName == serviceName)).length

/-- An id is absent from the store. -/
def idAbsent (store : List ExceptionLog) (i : String) : Prop :=
  ∀ l ∈ store, l.id ≠ i

/-! ### Interleaved tick machine

The source dispatches the per-record pipelines fire-and-continue: the
`for` loop fires every request without awaiting, and each failure handler
is an `async` callback that suspends twice — at `await hasSimilarError`
(a store read) and at `await createExceptionLog` (a store insert).  Steps
of different records' handlers may therefore interleave; in particular
another handler may run between a handler's dedup check and its insert.
The machine below makes those suspension points explicit: a schedule picks
which pipeline advances next. -/

/-- One in-flight per-record pipeline of a tick: the snapshot record, the
gateway outcome for it, the `Date.now()` value its insert resolves at, and
how far its outcome routing has advanced.  `stage` 0: outcome not yet
routed; 1 (failure only): the dedup check has run — `similar` holds its
result — and the insert is pending behind the second await; 2: done. -/
structure PendingTask where
  log : ExceptionLog
  result : Option String
  insertAt : Nat
  stage : Nat
  similar : Bool
deriving DecidableEq, Repr

/-- The evolving state of one tick: the store plus the in-flight
pipelines. -/
structure TickRun where
  store : List ExceptionLog
  tasks : List PendingTask
deriving DecidableEq, Repr

/-- Advance pipeline `i` by one stage.  A successful pipeline's single
stage deletes its record (`tap`); a failing pipeline's first stage is the
dedup check (`await hasSimilarError` — it reads the store as it is at that
moment), its second stage the guarded insert (`await createExceptionLog`),
acting on whatever the store has become since the check. -/
def stepTask (online : Bool) (tr : TickRun) (i : Nat) : TickRun :=
  match tr.tasks.get? i with
  | none => tr
  | some t =>
    match t.result with
    | none =>
      match t.stage with
      | 0 => { store := deleteLog tr.store t.log.id,
               tasks := tr.tasks.set i { t with stage := 2 } }
      | _ => tr
    | some e =>
      match t.stage with
      | 0 =>
        { store := tr.store,
          tasks := tr.tasks.set i
            { t with stage := 1,
                     similar := hasSimilarError tr.store (getErrorType online e)
                       (getErrorCode (getErrorType online e)) "AppComponent" } }
      | 1 =>
        if t.similar then
          { store := tr.store, tasks := tr.tasks.set i { t with stage := 2 } }
        else
          { store := tr.store ++
              [mkSyncErrorLog (getErrorType online e) (getErrorCode (getErrorType online e))
                t.log.parkingDoorNumber e t.insertAt],
            tasks := tr.tasks.set i { t with stage := 2 } }
      | _ => tr

/-- Atomic advancement of pipeline `i`: its remaining stages run
back-to-back with no other pipeline step in between (for a fresh failure
pipeline, check-then-insert against one and the same store state). -/
def stepTaskAtomic (online : Bool) (tr : TickRun) (i : Nat) : TickRun :=
  stepTask online (stepTask online tr i) i

/-- The spawn phase of a tick: read the unsynced snapshot and fire one
pipeline per record; `gateway` fixes each call's outcome, and `now + i + 1`
stands for the distinct `Date.now()` values at which the handlers' inserts
resolve. -/
def initTickRun (now : Nat) (gateway : ExceptionLogRequest → Option String)
    (store : List ExceptionLog) : TickRun :=
  { store := store,
    tasks := (unsyncedLogs store).enum.map (fun p =>
      { log := p.2, result := gateway (mkLogRequest now p.2),
        insertAt := now + p.1 + 1, stage := 0, similar := false }) }

/-- One tick under a free schedule: the listed pipeline steps run in the
given order (out-of-range or exhausted picks are no-ops). -/
def runSchedule (online : Bool) (sched : List Nat) (tr : TickRun) : TickRun :=
  sched.foldl (stepTask online) tr

/-- One tick under a schedule of atomic pipeline advancements. -/
def runScheduleAtomic (online : Bool) (sched : List Nat) (tr : TickRun) : TickRun :=
  sched.foldl (stepTaskAtomic online) tr

/-- The environment of one interleaved tick: connectivity, time, gateway
behaviour and the order in which pipelines are advanced. -/
structure ITickEnv where
  online : Bool
  now : Nat
  gateway : ExceptionLogRequest → Option String
  sched : List Nat

/-- A sequence of ticks of the interleaved machine, each with atomic
per-record outcome routing. -/
def runInterleavedTicks (ticks : List ITickEnv) (store : List ExceptionLog) :
    List ExceptionLog :=
  ticks.foldl (fun st t =>
    (runScheduleAtomic t.online t.sched (initTickRun t.now t.gateway st)).store) store

/-! ## Recurring task scheduler (`CronService`)

Two views of the same source.  First a single-job view of an interval job's
`wrappedOnTick` closure (sufficient for run-count/failure semantics), then
a registry-level machine over the whole `jobs` map together with the pool
of live browser timers (needed for replacement, start/stop and daily
jobs). -/

/-- Options accepted by the registration calls.  `autoStart = none` models
an absent option (the source tests `options?.autoStart !== false`);
`hasOnError` records whether an `onError` callback was supplied. -/
structure CronJobOptions where
  autoStart : Option Bool := none
  runOnInit : Bool := false
  maxRuns : Option Nat := none
  hasOnError : Bool := false
deriving DecidableEq, Repr

/-- The guard `maxRuns && runCount >= maxRuns` of `wrappedOnTick`.  In
JavaScript `maxRuns` is falsy when absent or `0`, so a registered
`maxRuns` of `0` disables the guard. -/
def maxRunsReached (maxRuns : Option Nat) (runCount : Nat) : Bool :=
  match maxRuns with
  | none => false
  | some m => decide (0 < m) && decide (m ≤ runCount)

/-- Single-job view of an interval job: the closure-local `runCount`
together with the wrapper fields `wrappedOnTick` touches. -/
structure IntervalJob where
  interval : Nat
  maxRuns : Option Nat
  hasOnError : Bool
  runCount : Nat
  lastRun : Option Nat
  nextRun : Option Nat
  isRunning : Bool
deriving DecidableEq, Repr

/-- What one tick did: whether the action was invoked, and the error
passed to `onError` when the action failed and a callback was registered. -/
structure TickEffects where
  invoked : Bool
  errReported : Option String
deriving DecidableEq, Repr

/-- `wrappedOnTick` for an interval job.  `actionResult = none` models the
action completing normally, `some e` models it throwing or rejecting with
error `e`.  When the max-runs guard fires the job stops itself
(`stopJob`: running jobs lose their timer, `isRunning` and `nextRun`)
without invoking the action; a successful invocation bumps `runCount`,
`lastRun` and `nextRun`; a failing invocation reports to `onError` when
registered and changes nothing else. -/
def intervalTick (now : Nat) (actionResult : Option String) (j : IntervalJob) :
    IntervalJob × TickEffects :=
  if maxRunsReached j.maxRuns j.runCount then
    (if j.isRunning then { j with isRunning := false, nextRun := none } else j,
     { invoked := false, errReported := none })
  else
    match actionResult with
    | none =>
      ({ j with runCount := j.runCount + 1, lastRun := some now,
                nextRun := some (now + j.interval) },
       { invoked := true, errReported := none })
    | some e =>
      (j, { invoked := true, errReported := if j.hasOnError then some e else none })

/-- Counts accumulated over a run of ticks. -/
structure RunLog where
  invocations : Nat
  successes : Nat
deriving DecidableEq, Repr

/-- One accumulation step of `runIntervalTicks`. -/
def intervalStep (acc : IntervalJob × RunLog) (t : Nat × Option String) :
    IntervalJob × RunLog :=
  ((intervalTick t.1 t.2 acc.1).1,
   { invocations := acc.2.invocations + (if (intervalTick t.1 t.2 acc.1).2.invoked then 1 else 0),
     successes := acc.2.successes +
       (if (intervalTick t.1 t.2 acc.1).2.invoked && t.2.isNone then 1 else 0) })

/-- Run a sequence of interval ticks, each given as (current time, action
result), counting invocations and successful invocations. -/
def runIntervalTicks (ticks : List (Nat × Option String)) (j : IntervalJob) :
    IntervalJob × RunLog :=
  ticks.foldl intervalStep (j, { invocations := 0, successes := 0 })

/-- The wrapper `addIntervalJob` creates before starting: `runCount = 0`,
nothing run yet, not running. -/
def newIntervalJob (interval : Nat) (opts : CronJobOptions) : IntervalJob :=
  { interval := interval, maxRuns := opts.maxRuns, hasOnError := opts.hasOnError,
    runCount := 0, lastRun := none, nextRun := none, isRunning := false }

/-- `addIntervalJob` on a fresh name, single-job view: register the
wrapper, run the `runOnInit` invocation when requested (the same
`wrappedOnTick` as periodic ticks, with outcome `initResult`), then start
the job unless `autoStart` is explicitly `false` (`startJob` arms the
timer and sets `nextRun`). -/
def registerIntervalJob (interval : Nat) (opts : CronJobOptions)
    (now : Nat) (initResult : Option String) : IntervalJob × TickEffects :=
  let j := newIntervalJob interval opts
  let r := if opts.runOnInit then intervalTick now initResult j
           else (j, { invoked := false, errReported := none })
  if opts.autoStart ≠ some false then
    ({ r.1 with isRunning := true, nextRun := some (now + interval) }, r.2)
  else r

/-! ### Registry-level machine -/

/-- A `CronJobWrapper` as held in the scheduler's `jobs` map (the fields
the registry operations read and write). -/
structure Wrapper where
  interval : Nat
  runCount : Nat
  lastRun : Option Nat
  nextRun : Option Nat
  isRunning : Bool
  intervalId : Option Nat
deriving DecidableEq, Repr

/-- The scheduler state: the `jobs` map (as an association list in
insertion order), the pool of live browser timers, the next timer id the
browser will hand out (browsers return positive integers, so allocation
starts at 1 and the JavaScript truthiness test `if (wrapper.intervalId)`
coincides with the id being present), and the current time. -/
structure Sched where
  jobs : List (String × Wrapper)
  liveTimers : List Nat
  nextTimerId : Nat
  now : Nat
deriving DecidableEq, Repr

/-- `Map.get`. -/
def mapGet (m : List (String × Wrapper)) (name : String) : Option Wrapper :=
  (m.find? (fun p => p.1 == name)).map Prod.snd

/-- `Map.has`. -/
def mapHas (m : List (String × Wrapper)) (name : String) : Bool :=
  m.any (fun p => p.1 == name)

/-- `Map.set`: replace in place when the key exists, append otherwise. -/
def mapSet (m : List (String × Wrapper)) (name : String) (w : Wrapper) :
    List (String × Wrapper) :=
  if mapHas m name then m.map (fun p => if p.1 == name then (name, w) else p)
  else m ++ [(name, w)]

/-- `Map.delete`. -/
def mapDelete (m : List (String × Wrapper)) (name : String) :
    List (String × Wrapper) :=
  m.filter (fun p => !(p.1 == name))

/-- `startJob`: unknown name or already-running job is a no-op (with a
report); otherwise arm a periodic timer, mark the job running and set
`nextRun = now + interval`. -/
def startJob (s : Sched) (name : String) : Sched :=
  match mapGet s.jobs name with
  | none => s
  | some w =>
    if w.isRunning then s
    else
      { s with
        jobs := mapSet s.jobs name
          { w with intervalId := some s.nextTimerId, isRunning := true,
                   nextRun := some (s.now + w.interval) },
        liveTimers := s.nextTimerId :: s.liveTimers,
        nextTimerId := s.nextTimerId + 1 }

/-- `stopJob`: unknown name or not-running job is a no-op (with a report);
otherwise clear the timer (when one is armed), mark the job stopped and
null `nextRun`. -/
def stopJob (s : Sched) (name : String) : Sched :=
  match mapGet s.jobs name with
  | none => s
  | some w =>
    if !w.isRunning then s
    else
      match w.intervalId with
      | some t =>
        { s with
          jobs := mapSet s.jobs name
            { w with intervalId := none, isRunning := false, nextRun := none },
          liveTimers := s.liveTimers.filter (fun x => !(x == t)) }
      | none =>
        { s with
          jobs := mapSet s.jobs name
            { w with isRunning := false, nextRun := none } }

/-- `removeJob`: unknown name is a no-op (with a report); otherwise stop
the job and delete its entry. -/
def removeJob (s : Sched) (name : String) : Sched :=
  if mapHas s.jobs name then
    let s1 := stopJob s name
    { s1 with jobs := mapDelete s1.jobs name }
  else s

/-- The `runOnInit` invocation of `wrappedOnTick` at registration time, at
registry level (the closure-local `runCount` and the wrapper's agree here:
both are 0). -/
def initTick (s : Sched) (name : String) (maxRuns : Option Nat)
    (result : Option String) : Sched :=
  match mapGet s.jobs name with
  | none => s
  | some w =>
    if maxRunsReached maxRuns w.runCount then stopJob s name
    else
      match result with
      | none =>
        let w1 : Wrapper :=
          { w with runCount := w.runCount + 1, lastRun := some s.now,
                   nextRun := some (s.now + w.interval) }
        { s with jobs := mapSet s.jobs name w1 }
      | some _ => s

/-- `addIntervalJob` at registry level: an existing job of the same name
is removed first (warning plus `removeJob`); a fresh wrapper is inserted;
the `runOnInit` invocation runs when requested; the job is started unless
`autoStart` is explicitly `false`. -/
def addIntervalJobS (s : Sched) (name : String) (interval : Nat)
    (opts : CronJobOptions) (initResult : Option String) : Sched :=
  let s0 := if mapHas s.jobs name then removeJob s name else s
  let w : Wrapper :=
    { interval := interval, runCount := 0, lastRun := none, nextRun := none,
      isRunning := false, intervalId := none }
  let s1 := { s0 with jobs := mapSet s0.jobs name w }
  let s2 := if opts.runOnInit then initTick s1 name opts.maxRuns initResult else s1
  if opts.autoStart ≠ some false then startJob s2 name else s2

/-- Milliseconds per day / hour / minute in the model calendar (local time
with fixed-length days, as produced by the source's component-wise `Date`
construction). -/
def msPerDay : Nat := 86400000

/-- Milliseconds per hour. -/
def msPerHour : Nat := 3600000

/-- Milliseconds per minute. -/
def msPerMinute : Nat := 60000

/-- The `scheduled` date of `getNextRun`: today (the day containing `now`)
at `hour:minute:00.000`. -/
def dailyTarget (now hour minute : Nat) : Nat :=
  now / msPerDay * msPerDay + hour * msPerHour + minute * msPerMinute

/-- `getNextRun` of `addDailyJob`: today's target, pushed to tomorrow when
it is already at or before `now`. -/
def getNextRun (now hour minute : Nat) : Nat :=
  let scheduled := dailyTarget now hour minute
  if scheduled ≤ now then scheduled + msPerDay else scheduled

/-- `scheduleNext` of `addDailyJob`: recompute the next run, arm a
single-shot timer for it and mark the job running. -/
def scheduleNextS (s : Sched) (name : String) (hour minute : Nat) : Sched :=
  match mapGet s.jobs name with
  | none => s
  | some w =>
    { s with
      jobs := mapSet s.jobs name
        { w with nextRun := some (getNextRun s.now hour minute),
                 intervalId := some s.nextTimerId, isRunning := true },
      liveTimers := s.nextTimerId :: s.liveTimers,
      nextTimerId := s.nextTimerId + 1 }

/-- `addDailyJob` at registry level: a wrapper with a 24h nominal interval
and `nextRun` precomputed by `getNextRun` is written into the map — the
source performs no existing-name check here — and `scheduleNext` arms the
chain unless `autoStart` is explicitly `false`. -/
def addDailyJobS (s : Sched) (name : String) (hour minute : Nat)
    (opts : CronJobOptions) : Sched :=
  let w : Wrapper :=
    { interval := msPerDay, runCount := 0, lastRun := none,
      nextRun := some (getNextRun s.now hour minute),
      isRunning := false, intervalId := none }
  let s1 := { s with jobs := mapSet s.jobs name w }
  if opts.autoStart ≠ some false then scheduleNextS s1 name hour minute else s1

/-- The scheduler's initial state (no jobs, no timers, timer ids from 1). -/
def schedInit (now : Nat) : Sched :=
  { jobs := [], liveTimers := [], nextTimerId := 1, now := now }

/-- Fixture: an unsynced exception log already sitting in the store. -/
def storedLog : ExceptionLog :=
  { id := "log-1", message := "Failed to fetch", serviceName := "CameraService",
    errorType := "Error", code := "UNKNOWN", timestamp := some 0,
    parkingDoorNumber := "3", isSynced := false }

/-- Fixture: a gateway that rejects every call with a fetch failure. -/
def gwReject : ExceptionLogRequest → Option String := fun _ => some "Failed to fetch"

/-- Fixture: a gateway that accepts every call. -/
def gwAccept : ExceptionLogRequest → Option String := fun _ => none

/-- Fixture: a second unsynced exception log, distinct id. -/
def storedLog2 : ExceptionLog :=
  { id := "log-2", message := "Failed to fetch", serviceName := "CameraService",
    errorType := "Error", code := "UNKNOWN", timestamp := some 0,
    parkingDoorNumber := "4", isSynced := false }

/-! ## Theorems -/

theorem mapGet_some_mapHas {m : List (String × Wrapper)} {name : String} {w : Wrapper}
    (h : mapGet m name = some w) : mapHas m name = true := by
  induction m with
  | nil => simp [mapGet] at h
  | cons p rest ih =>
    by_cases hp : (p.1 == name) = true
    · simp [mapHas, hp]
    · simp only [mapGet, List.find?, hp] at h
      have := ih (by simpa [mapGet] using h)
      simp [mapHas, hp] at this ⊢
      tauto

theorem mapGet_mapSet_self (m : List (String × Wrapper)) (name : String) (w : Wrapper) :
    mapGet (mapSet m name w) name = some w := by
  unfold mapSet
  by_cases h : mapHas m name = true
  · simp only [h, if_true]
    induction m with
    | nil => simp [mapHas] at h
    | cons p rest ih =>
      by_cases hp : (p.1 == name) = true
      · simp [mapGet, List.find?, hp]
      · have hr : mapHas rest name = true := by
          simp [mapHas, hp] at h ⊢
          tauto
        simpa [mapGet, List.find?, hp] using ih hr
  · simp only [h, if_false]
    have h' : mapHas m name = false := by simpa using h
    have hnone : (m.find? (fun p => p.1 == name)) = none := by
      rw [List.find?_eq_none]
      intro p hp
      simp only [mapHas] at h'
      rw [List.any_eq_false] at h'
      exact h' p hp
    simp [mapGet, List.find?_append, hnone, List.find?]

/-- C1: the claim says an offline tick is a no-op (zero Remote Gateway
calls, zero Record Store mutations).  The code never consults the
Connectivity Monitor in `checkSyncLog`: with connectivity offline and one
unsynced log in the store, the tick makes one gateway call, and — the call
failing as it must offline — classifies the failure as
`NetworkOfflineError` and inserts a new diagnostic record, mutating the
store from one record to two. -/
theorem C1_offline_tick_not_noop :
    (checkSyncLog false 1000 gwReject [storedLog]).2 = 1 ∧
    (checkSyncLog false 1000 gwReject [storedLog]).1.length = 2 ∧
    (checkSyncLog false 1000 gwReject [storedLog]).1.map (fun l => l.errorType) =
      ["Error", "NetworkOfflineError"] := by decide

/-- C6: `addDailyJob` computes the registered job's `nextRunAt` by taking
today's `hour:minute:00.000`; when that target is already at or before the
current time it schedules tomorrow's target, otherwise today's. -/
theorem C6_daily_rollover (s : Sched) (name : String) (hour minute : Nat)
    (opts : CronJobOptions) :
    (∃ w, mapGet (addDailyJobS s name hour minute opts).jobs name = some w ∧
       w.nextRun = some (getNextRun s.now hour minute)) ∧
    (dailyTarget s.now hour minute ≤ s.now →
       getNextRun s.now hour minute = dailyTarget s.now hour minute + msPerDay) ∧
    (s.now < dailyTarget s.now hour minute →
       getNextRun s.now hour minute = dailyTarget s.now hour minute) := by
  refine ⟨?_, ?_, ?_⟩
  · unfold addDailyJobS
    split
    · unfold scheduleNextS
      simp only [mapGet_mapSet_self]
      exact ⟨_, rfl, rfl⟩
    · exact ⟨_, mapGet_mapSet_self _ _ _, rfl⟩
  · intro h
    simp [getNextRun, h]
  · intro h
    simp [getNextRun, Nat.not_le.mpr h]

/-- C6 witness: registering a daily 09:00 job at local time 09:05 computes
`nextRunAt` as 09:00 the following day. -/
theorem C6_daily_rollover_witness :
    dailyTarget (9 * msPerHour + 5 * msPerMinute) 9 0 ≤ 9 * msPerHour + 5 * msPerMinute ∧
    getNextRun (9 * msPerHour + 5 * msPerMinute) 9 0 =
      dailyTarget (9 * msPerHour + 5 * msPerMinute) 9 0 + msPerDay :=
  ⟨by decide,
   (C6_daily_rollover (schedInit (9 * msPerHour + 5 * msPerMinute)) "sync" 9 0 {}).2.1
     (by decide)⟩

/-- C7: `getErrorType` agrees everywhere with the spec's ordered trigger
table — offline / network signatures first, then timeout, then 400, 401,
403, 404, then 500 signatures, defaulting to SyncError — and
`getErrorCode` realizes the fixed errorKind-to-code table. -/
theorem C7_classification (online : Bool) (msg : String) :
    getErrorType online msg = classifyBySpec online msg ∧
    getErrorCode "NetworkOfflineError" = "SYNC_NET_001" ∧
    getErrorCode "TimeoutError" = "SYNC_TMO_001" ∧
    getErrorCode "BadRequestError" = "SYNC_REQ_400" ∧
    getErrorCode "UnauthorizedError" = "SYNC_AUT_401" ∧
    getErrorCode "ForbiddenError" = "SYNC_FOR_403" ∧
    getErrorCode "NotFoundError" = "SYNC_NTF_404" ∧
    getErrorCode "ServerError" = "SYNC_SRV_500" ∧
    getErrorCode "SyncError" = "SYNC_ERR_001" := by
  refine ⟨?_, by decide, by decide, by decide, by decide, by decide, by decide,
    by decide, by decide⟩
  unfold getErrorType classifyBySpec errorTriggerTable
  by_cases h1 : (!online || strContains (lowerStr msg) "network" ||
      strContains (lowerStr msg) "failed to fetch") = true
  · simp [h1, List.find?]
  · by_cases h2 : strContains (lowerStr msg) "timeout" = true
    · simp [h1, h2, List.find?]
    · by_cases h3 : (strContains (lowerStr msg) "400" ||
          strContains (lowerStr msg) "bad request") = true
      · simp [h1, h2, h3, List.find?]
      · by_cases h4 : (strContains (lowerStr msg) "401" ||
            strContains (lowerStr msg) "unauthorized") = true
        · simp [h1, h2, h3, h4, List.find?]
        · by_cases h5 : (strContains (lowerStr msg) "403" ||
              strContains (lowerStr msg) "forbidden") = true
          · simp [h1, h2, h3, h4, h5, List.find?]
          · by_cases h6 : (strContains (lowerStr msg) "404" ||
                strContains (lowerStr msg) "not found") = true
            · simp [h1, h2, h3, h4, h5, h6, List.find?]
            · by_cases h7 : (strContains (lowerStr msg) "500" ||
                  strContains (lowerStr msg) "internal server") = true
              · simp [h1, h2, h3, h4, h5, h6, h7, List.find?]
              · simp [h1, h2, h3, h4, h5, h6, h7, List.find?]

/-- C4 counterexample: for a job registered with `maxRuns = 1`, two ticks
whose action throws both invoke the action — failed invocations do not
count against the ceiling, so the action is invoked more than `k` times. -/
theorem C4_cex_failed_runs_exceed :
    ¬ ((runIntervalTicks [(0, some "boom"), (30000, some "boom")]
        (registerIntervalJob 30000 { maxRuns := some 1 } 0 none).1).2.invocations ≤ 1) := by
  decide

/-- C10 counterexample: with `maxRuns = 0` and `runOnInit = true` the
JavaScript guard `maxRuns && runCount >= maxRuns` is falsy, so the init
invocation runs (`runCount` becomes 1) and a further periodic tick still
succeeds — more than `k - 1 = 0` further successful periodic invocations. -/
theorem C10_cex_maxruns_zero :
    ¬ ((runIntervalTicks [(5, none)]
        (registerIntervalJob 1000 { runOnInit := true, maxRuns := some 0 } 0 none).1).2.successes
       ≤ 0 - 1) := by decide

/-- C9 counterexample: a daily job registered with `autoStart = false` has
`running = false` while `nextRunAt` is already set (the wrapper is created
with `nextRun = getNextRun()` before any start), violating
`running = false → nextRunAt = null` at the after-registration point. -/
theorem C9_cex_daily_autostart_false :
    (mapGet (addDailyJobS (schedInit (10 * msPerHour)) "d" 9 0
        { autoStart := some false }).jobs "d").map
      (fun w => (w.isRunning, w.nextRun.isSome)) = some (false, true) := by decide

/-- C8 counterexample: registering an interval job "j" (its timer gets id
1), then registering a daily job under the same name, leaves timer 1 in
the live pool — `addDailyJob` overwrites the map entry without stopping
the existing job, so the replaced job's timer keeps firing (the new daily
job's own timer is id 2). -/
theorem C8_cex_daily_overwrite_timer :
    (1 ∈ (addDailyJobS (addIntervalJobS (schedInit 0) "j" 1000 {} none)
            "j" 9 0 {}).liveTimers) ∧
    ((mapGet (addDailyJobS (addIntervalJobS (schedInit 0) "j" 1000 {} none)
            "j" 9 0 {}).jobs "j").map (fun w => w.intervalId) = some (some 2)) := by
  decide

theorem intervalTick_static (now : Nat) (r : Option String) (j : IntervalJob) :
    (intervalTick now r j).1.maxRuns = j.maxRuns ∧
    (intervalTick now r j).1.interval = j.interval ∧
    (intervalTick now r j).1.hasOnError = j.hasOnError := by
  unfold intervalTick
  split
  · split <;> simp
  · cases r <;> simp

theorem intervalTick_runCount_le {k : Nat} (hk : 0 < k) (now : Nat) (r : Option String)
    (j : IntervalJob) (hmax : j.maxRuns = some k) (h : j.runCount ≤ k) :
    (intervalTick now r j).1.runCount ≤ k := by
  unfold intervalTick
  split
  · split <;> simpa using h
  · next hg =>
    have hlt : j.runCount < k := by
      rw [hmax] at hg
      unfold maxRunsReached at hg
      simp [hk] at hg
      omega
    cases r <;> simp <;> omega

theorem intervalTick_at_ceiling {k : Nat} (hk : 0 < k) (now : Nat) (r : Option String)
    (j : IntervalJob) (hmax : j.maxRuns = some k) (hrc : k ≤ j.runCount) :
    (intervalTick now r j).2.invoked = false ∧ (intervalTick now r j).1.isRunning = false := by
  have hg : maxRunsReached j.maxRuns j.runCount = true := by
    rw [hmax]
    unfold maxRunsReached
    simp [hk, hrc]
  unfold intervalTick
  rw [if_pos hg]
  refine ⟨rfl, ?_⟩
  split
  · rfl
  · next hr => simpa using hr

theorem intervalStep_maxRuns (acc : IntervalJob × RunLog) (t : Nat × Option String) :
    (intervalStep acc t).1.maxRuns = acc.1.maxRuns :=
  (intervalTick_static t.1 t.2 acc.1).1

theorem intervalStep_runCount (acc : IntervalJob × RunLog) (t : Nat × Option String) :
    (intervalStep acc t).1.runCount + acc.2.successes =
      acc.1.runCount + (intervalStep acc t).2.successes := by
  unfold intervalStep intervalTick
  split
  · split <;> simp
  · cases ht : t.2 <;> simp [ht] <;> omega

theorem intervalStep_invocations (acc : IntervalJob × RunLog) (t : Nat × Option String)
    (ht : t.2 = none) :
    (intervalStep acc t).2.invocations + acc.2.successes =
      acc.2.invocations + (intervalStep acc t).2.successes := by
  unfold intervalStep intervalTick
  split
  · simp
  · simp [ht]
    omega

theorem foldSteps_maxRuns :
    ∀ (ticks : List (Nat × Option String)) (acc : IntervalJob × RunLog),
      ((ticks.foldl intervalStep acc).1).maxRuns = acc.1.maxRuns
  | [], _ => rfl
  | t :: ts, acc => by
    rw [List.foldl_cons, foldSteps_maxRuns ts]
    exact intervalStep_maxRuns acc t

theorem foldSteps_runCount :
    ∀ (ticks : List (Nat × Option String)) (acc : IntervalJob × RunLog),
      ((ticks.foldl intervalStep acc).1).runCount + acc.2.successes =
        acc.1.runCount + ((ticks.foldl intervalStep acc).2).successes
  | [], _ => rfl
  | t :: ts, acc => by
    rw [List.foldl_cons]
    have h1 := foldSteps_runCount ts (intervalStep acc t)
    have h2 := intervalStep_runCount acc t
    omega

theorem foldSteps_runCount_le {k : Nat} (hk : 0 < k) :
    ∀ (ticks : List (Nat × Option String)) (acc : IntervalJob × RunLog),
      acc.1.maxRuns = some k → acc.1.runCount ≤ k →
      ((ticks.foldl intervalStep acc).1).runCount ≤ k
  | [], _, _, h => h
  | t :: ts, acc, hmax, h => by
    rw [List.foldl_cons]
    exact foldSteps_runCount_le hk ts (intervalStep acc t)
      ((intervalStep_maxRuns acc t).trans hmax)
      (intervalTick_runCount_le hk t.1 t.2 acc.1 hmax h)

theorem foldSteps_invocations :
    ∀ (ticks : List (Nat × Option String)) (acc : IntervalJob × RunLog),
      (∀ t ∈ ticks, t.2 = none) →
      ((ticks.foldl intervalStep acc).2).invocations + acc.2.successes =
        acc.2.invocations + ((ticks.foldl intervalStep acc).2).successes
  | [], _, _ => rfl
  | t :: ts, acc, hall => by
    rw [List.foldl_cons]
    have h1 := foldSteps_invocations ts (intervalStep acc t)
      (fun x hx => hall x (List.mem_cons_of_mem t hx))
    have h2 := intervalStep_invocations acc t (hall t (List.mem_cons_self t ts))
    omega

theorem registerIntervalJob_maxRuns (itv : Nat) (opts : CronJobOptions) (now : Nat)
    (res : Option String) :
    (registerIntervalJob itv opts now res).1.maxRuns = opts.maxRuns := by
  unfold registerIntervalJob
  by_cases hr : opts.runOnInit <;> by_cases ha : opts.autoStart ≠ some false <;>
    simp [hr, ha, intervalTick_static, newIntervalJob]

theorem registerIntervalJob_runCount_le_one (itv : Nat) (opts : CronJobOptions) (now : Nat)
    (res : Option String) :
    (registerIntervalJob itv opts now res).1.runCount ≤ 1 := by
  have hs : (intervalTick now res (newIntervalJob itv opts)).1.runCount ≤ 1 := by
    unfold intervalTick
    split
    · split <;> simp [newIntervalJob]
    · cases res <;> simp [newIntervalJob]
  unfold registerIntervalJob
  by_cases hr : opts.runOnInit <;> by_cases ha : opts.autoStart ≠ some false <;>
    simp [hr, ha, newIntervalJob] <;> simpa using hs

theorem runTicks_ceiling (k : Nat) (hk : 0 < k) (j1 : IntervalJob)
    (hjm : j1.maxRuns = some k) (hj1 : j1.runCount ≤ k)
    (ticks : List (Nat × Option String)) :
    (runIntervalTicks ticks j1).1.runCount ≤ k ∧
    ((∀ t ∈ ticks, t.2 = (none : Option String)) →
      (runIntervalTicks ticks j1).2.invocations + j1.runCount ≤ k) ∧
    (∀ tnow r, k ≤ (runIntervalTicks ticks j1).1.runCount →
      (intervalTick tnow r (runIntervalTicks ticks j1).1).2.invoked = false ∧
      (intervalTick tnow r (runIntervalTicks ticks j1).1).1.isRunning = false) := by
  have hle : (runIntervalTicks ticks j1).1.runCount ≤ k :=
    foldSteps_runCount_le hk ticks (j1, { invocations := 0, successes := 0 }) hjm hj1
  refine ⟨hle, ?_, ?_⟩
  · intro hall
    have h1 : (runIntervalTicks ticks j1).1.runCount + 0 =
        j1.runCount + (runIntervalTicks ticks j1).2.successes :=
      foldSteps_runCount ticks (j1, { invocations := 0, successes := 0 })
    have h2 : (runIntervalTicks ticks j1).2.invocations + 0 =
        0 + (runIntervalTicks ticks j1).2.successes :=
      foldSteps_invocations ticks (j1, { invocations := 0, successes := 0 }) hall
    omega
  · intro tnow r hreach
    exact intervalTick_at_ceiling hk tnow r _
      ((foldSteps_maxRuns ticks (j1, { invocations := 0, successes := 0 })).trans hjm) hreach

/-- C4 (amended): for a job registered with `maxRuns = k`, `k ≥ 1`:
`runCount` never exceeds `k` across any sequence of ticks; when every
invocation succeeds, the total number of action invocations (a
registration-time `runOnInit` invocation included, via the registered
job's initial `runCount`) is at most `k`; and a tick arriving once
`runCount` has reached `k` does not invoke the action and leaves the job
stopped (`running = false`).  Failed invocations do not count toward the
ceiling, and a registered `maxRuns` of `0` disables the JavaScript guard,
which is why the claim's unconditional invocation bound is restricted. -/
theorem C4_maxRuns_ceiling (k : Nat) (hk : 1 ≤ k) (itv now0 : Nat)
    (opts : CronJobOptions) (initResult : Option String) (hmax : opts.maxRuns = some k)
    (ticks : List (Nat × Option String)) :
    (runIntervalTicks ticks (registerIntervalJob itv opts now0 initResult).1).1.runCount ≤ k ∧
    ((∀ t ∈ ticks, t.2 = (none : Option String)) →
      (runIntervalTicks ticks (registerIntervalJob itv opts now0 initResult).1).2.invocations +
        (registerIntervalJob itv opts now0 initResult).1.runCount ≤ k) ∧
    (∀ tnow r,
      k ≤ (runIntervalTicks ticks (registerIntervalJob itv opts now0 initResult).1).1.runCount →
      (intervalTick tnow r
        (runIntervalTicks ticks (registerIntervalJob itv opts now0 initResult).1).1).2.invoked
        = false ∧
      (intervalTick tnow r
        (runIntervalTicks ticks (registerIntervalJob itv opts now0 initResult).1).1).1.isRunning
        = false) := by
  refine runTicks_ceiling k hk (registerIntervalJob itv opts now0 initResult).1 ?_ ?_ ticks
  · exact (registerIntervalJob_maxRuns itv opts now0 initResult).trans hmax
  · exact le_trans (registerIntervalJob_runCount_le_one itv opts now0 initResult) hk

/-- C4 witness: a job with `maxRuns = 2` over three all-success ticks. -/
theorem C4_maxRuns_ceiling_witness :
    (1 ≤ 2 ∧ ({ maxRuns := some 2 } : CronJobOptions).maxRuns = some 2) ∧
    ((runIntervalTicks [(0, none), (1000, none), (2000, none)]
        (registerIntervalJob 1000 { maxRuns := some 2 } 0 none).1).1.runCount ≤ 2 ∧
     ((∀ t ∈ [((0 : Nat), (none : Option String)), (1000, none), (2000, none)],
         t.2 = (none : Option String)) →
       (runIntervalTicks [(0, none), (1000, none), (2000, none)]
          (registerIntervalJob 1000 { maxRuns := some 2 } 0 none).1).2.invocations +
         (registerIntervalJob 1000 { maxRuns := some 2 } 0 none).1.runCount ≤ 2) ∧
     (∀ tnow r,
       2 ≤ (runIntervalTicks [(0, none), (1000, none), (2000, none)]
          (registerIntervalJob 1000 { maxRuns := some 2 } 0 none).1).1.runCount →
       (intervalTick tnow r (runIntervalTicks [(0, none), (1000, none), (2000, none)]
          (registerIntervalJob 1000 { maxRuns := some 2 } 0 none).1).1).2.invoked = false ∧
       (intervalTick tnow r (runIntervalTicks [(0, none), (1000, none), (2000, none)]
          (registerIntervalJob 1000 { maxRuns := some 2 } 0 none).1).1).1.isRunning = false)) :=
  ⟨⟨by decide, rfl⟩,
   C4_maxRuns_ceiling 2 (by decide) 1000 0 { maxRuns := some 2 } none rfl
     [(0, none), (1000, none), (2000, none)]⟩

/-- C5: a tick whose action throws (and which is not short-circuited by
the max-runs guard) leaves the job state unchanged — `runCount` not
incremented, still running, `nextRun` untouched, so the next tick proceeds
on schedule — while the error is passed to `onError` exactly when a
callback is registered. -/
theorem C5_failing_tick (j : IntervalJob) (now : Nat) (e : String)
    (hguard : maxRunsReached j.maxRuns j.runCount = false) :
    (intervalTick now (some e) j).1 = j ∧
    (intervalTick now (some e) j).2.invoked = true ∧
    (intervalTick now (some e) j).2.errReported =
      (if j.hasOnError then some e else none) := by
  unfold intervalTick
  rw [hguard]
  exact ⟨rfl, rfl, rfl⟩

/-- C5 witness: a running registered job with an `onError` callback whose
action throws "boom": the job is unchanged and the error is reported. -/
theorem C5_failing_tick_witness :
    maxRunsReached ((registerIntervalJob 1000 { hasOnError := true } 0 none).1).maxRuns
      ((registerIntervalJob 1000 { hasOnError := true } 0 none).1).runCount = false ∧
    (intervalTick 1000 (some "boom")
      (registerIntervalJob 1000 { hasOnError := true } 0 none).1).1 =
      (registerIntervalJob 1000 { hasOnError := true } 0 none).1 ∧
    (intervalTick 1000 (some "boom")
      (registerIntervalJob 1000 { hasOnError := true } 0 none).1).2.invoked = true :=
  ⟨by decide,
   (C5_failing_tick (registerIntervalJob 1000 { hasOnError := true } 0 none).1
      1000 "boom" (by decide)).1,
   (C5_failing_tick (registerIntervalJob 1000 { hasOnError := true } 0 none).1
      1000 "boom" (by decide)).2.1⟩

theorem registerRunOnInit_success (itv now0 : Nat) (auto : Option Bool)
    (mk : Option Nat) (he : Bool) (hguard : maxRunsReached mk 0 = false) :
    (registerIntervalJob itv
      { autoStart := auto, runOnInit := true, maxRuns := mk, hasOnError := he }
      now0 none).1.runCount = 1 ∧
    (registerIntervalJob itv
      { autoStart := auto, runOnInit := true, maxRuns := mk, hasOnError := he }
      now0 none).2.invoked = true := by
  unfold registerIntervalJob
  by_cases ha : auto ≠ some false <;>
    simp [ha, newIntervalJob, intervalTick, hguard]

/-- C10 (amended): for `maxRuns = k` with `k ≥ 1`, `runOnInit = true` and
a succeeding init invocation: the initial invocation runs the same wrapped
tick — it is invoked and increments `runCount` to 1, counting toward the
ceiling — and any following sequence of periodic ticks performs at most
`k - 1` further successful invocations (stated as successes + 1 ≤ k).
For `k = 0` the JavaScript guard is falsy and the ceiling is disabled,
which is why the bound needs `k ≥ 1`. -/
theorem C10_runOnInit_counts (k : Nat) (hk : 1 ≤ k) (itv now0 : Nat) (auto : Option Bool)
    (he : Bool) (ticks : List (Nat × Option String)) :
    (registerIntervalJob itv
      { autoStart := auto, runOnInit := true, maxRuns := some k, hasOnError := he }
      now0 none).1.runCount = 1 ∧
    (registerIntervalJob itv
      { autoStart := auto, runOnInit := true, maxRuns := some k, hasOnError := he }
      now0 none).2.invoked = true ∧
    (runIntervalTicks ticks (registerIntervalJob itv
      { autoStart := auto, runOnInit := true, maxRuns := some k, hasOnError := he }
      now0 none).1).2.successes + 1 ≤ k := by
  have hguard : maxRunsReached (some k) 0 = false := by
    unfold maxRunsReached
    simp
    omega
  obtain ⟨hrc, hinv⟩ := registerRunOnInit_success itv now0 auto (some k) he hguard
  refine ⟨hrc, hinv, ?_⟩
  have hjm : (registerIntervalJob itv
      { autoStart := auto, runOnInit := true, maxRuns := some k, hasOnError := he }
      now0 none).1.maxRuns = some k :=
    registerIntervalJob_maxRuns itv _ now0 none
  have hle : (runIntervalTicks ticks (registerIntervalJob itv
      { autoStart := auto, runOnInit := true, maxRuns := some k, hasOnError := he }
      now0 none).1).1.runCount ≤ k :=
    foldSteps_runCount_le hk ticks ((registerIntervalJob itv
      { autoStart := auto, runOnInit := true, maxRuns := some k, hasOnError := he }
      now0 none).1, { invocations := 0, successes := 0 }) hjm (by rw [hrc]; exact hk)
  have hcount : (runIntervalTicks ticks (registerIntervalJob itv
      { autoStart := auto, runOnInit := true, maxRuns := some k, hasOnError := he }
      now0 none).1).1.runCount + 0 =
      (registerIntervalJob itv
        { autoStart := auto, runOnInit := true, maxRuns := some k, hasOnError := he }
        now0 none).1.runCount +
      (runIntervalTicks ticks (registerIntervalJob itv
        { autoStart := auto, runOnInit := true, maxRuns := some k, hasOnError := he }
        now0 none).1).2.successes :=
    foldSteps_runCount ticks ((registerIntervalJob itv
      { autoStart := auto, runOnInit := true, maxRuns := some k, hasOnError := he }
      now0 none).1, { invocations := 0, successes := 0 })
  omega

theorem tripleCount_deleteLog_le (store : List ExceptionLog) (i et c sn : String) :
    tripleCount (deleteLog store i) et c sn ≤ tripleCount store et c sn := by
  unfold tripleCount unsyncedLogs deleteLog
  exact List.Sublist.length_le
    (List.Sublist.filter _ (List.Sublist.filter _ (List.filter_sublist store)))

theorem tripleCount_append_one (store : List ExceptionLog) (x : ExceptionLog)
    (et c sn : String) :
    tripleCount (store ++ [x]) et c sn =
      tripleCount store et c sn +
      (if !x.isSynced && (x.errorType == et && x.code == c && x.serviceName == sn)
       then 1 else 0) := by
  unfold tripleCount unsyncedLogs
  rw [List.filter_append, List.filter_append, List.length_append]
  congr 1
  by_cases h1 : (!x.isSynced) = true
  · by_cases h2 : (x.errorType == et && x.code == c && x.serviceName == sn) = true
    · simp [h1, h2]
    · simp [h1, h2]
  · simp [h1]

theorem hasSimilar_false_tripleCount (store : List ExceptionLog) (et c sn : String)
    (h : hasSimilarError store et c sn = false) : tripleCount store et c sn = 0 := by
  unfold hasSimilarError at h
  unfold tripleCount
  rw [List.length_eq_zero, List.filter_eq_nil_iff]
  rw [List.any_eq_false] at h
  exact h

theorem tripleCount_processLog_le (online : Bool) (now : Nat) (log : ExceptionLog)
    (result : Option String) (store : List ExceptionLog) (et c sn : String)
    (h : tripleCount store et c sn ≤ 1) :
    tripleCount (processLog online now log result store) et c sn ≤ 1 := by
  unfold processLog
  cases result with
  | none => exact le_trans (tripleCount_deleteLog_le store log.id et c sn) h
  | some errMsg =>
    by_cases hs : hasSimilarError store (getErrorType online errMsg)
        (getErrorCode (getErrorType online errMsg)) "AppComponent" = true
    · simpa [hs] using h
    · have hs' : hasSimilarError store (getErrorType online errMsg)
          (getErrorCode (getErrorType online errMsg)) "AppComponent" = false := by
        simpa using hs
      simp only [hs', Bool.false_eq_true, if_false]
      rw [tripleCount_append_one]
      by_cases hm : (!(mkSyncErrorLog (getErrorType online errMsg)
            (getErrorCode (getErrorType online errMsg)) log.parkingDoorNumber errMsg
            now).isSynced &&
          ((mkSyncErrorLog (getErrorType online errMsg)
            (getErrorCode (getErrorType online errMsg)) log.parkingDoorNumber errMsg
            now).errorType == et &&
           (mkSyncErrorLog (getErrorType online errMsg)
            (getErrorCode (getErrorType online errMsg)) log.parkingDoorNumber errMsg
            now).code == c &&
           (mkSyncErrorLog (getErrorType online errMsg)
            (getErrorCode (getErrorType online errMsg)) log.parkingDoorNumber errMsg
            now).serviceName == sn)) = true
      · rw [if_pos hm]
        simp only [mkSyncErrorLog, Bool.not_false, Bool.true_and] at hm
        rw [Bool.and_eq_true, Bool.and_eq_true] at hm
        obtain ⟨⟨he1, he2⟩, he3⟩ := hm
        rw [beq_iff_eq] at he1 he2 he3
        have h0 : tripleCount store et c sn = 0 := by
          rw [← he1, ← he2, ← he3]
          exact hasSimilar_false_tripleCount store _ _ _ hs'
        omega
      · rw [if_neg hm]
        omega

theorem listGet_set_self {α : Type} :
    ∀ (l : List α) (i : Nat) (a b : α),
      l.get? i = some b → (l.set i a).get? i = some a
  | [], _, _, _, h => by simp at h
  | _ :: _, 0, _, _, _ => rfl
  | x :: xs, i + 1, a, b, h => by
    simpa using listGet_set_self xs i a b (by simpa using h)

theorem listMem_set {α : Type} :
    ∀ (l : List α) (i : Nat) (a b : α), b ∈ l.set i a → b = a ∨ b ∈ l
  | [], _, _, _, h => Or.inr h
  | x :: xs, 0, a, b, h => by
    rcases List.mem_cons.mp h with h | h
    · exact Or.inl h
    · exact Or.inr (List.mem_cons_of_mem x h)
  | x :: xs, i + 1, a, b, h => by
    rcases List.mem_cons.mp h with h | h
    · exact Or.inr (by rw [h]; exact List.mem_cons_self x xs)
    · rcases listMem_set xs i a b h with h | h
      · exact Or.inl h
      · exact Or.inr (List.mem_cons_of_mem x h)

theorem listGet_mem {α : Type} :
    ∀ (l : List α) (i : Nat) (a : α), l.get? i = some a → a ∈ l
  | [], _, _, h => by simp at h
  | x :: xs, 0, a, h => by
    simp only [List.get?] at h
    injection h with h
    rw [h]
    exact List.mem_cons_self a xs
  | x :: xs, i + 1, a, h => by
    exact List.mem_cons_of_mem x (listGet_mem xs i a (by simpa using h))

theorem listSet_set {α : Type} :
    ∀ (l : List α) (i : Nat) (a b : α), (l.set i a).set i b = l.set i b
  | [], _, _, _ => rfl
  | x :: xs, 0, _, _ => rfl
  | x :: xs, i + 1, a, b => by
    simp only [List.set]
    rw [listSet_set xs i a b]

theorem stepTask_none (online : Bool) (tr : TickRun) (i : Nat)
    (hget : tr.tasks.get? i = none) : stepTask online tr i = tr := by
  unfold stepTask
  split
  · rfl
  · next t heq => rw [hget] at heq; cases heq

theorem stepTask_done (online : Bool) (tr : TickRun) (i : Nat) (t : PendingTask) (m : Nat)
    (hget : tr.tasks.get? i = some t) (hst : t.stage = m + 2) :
    stepTask online tr i = tr := by
  obtain ⟨tlog, tres, tins, tstage, tsim⟩ := t
  dsimp only at hst
  subst hst
  cases tres with
  | none =>
    unfold stepTask
    rw [hget]
    rfl
  | some e =>
    unfold stepTask
    rw [hget]
    rfl

theorem stepTask_success (online : Bool) (tr : TickRun) (i : Nat) (t : PendingTask)
    (hget : tr.tasks.get? i = some t) (hres : t.result = none) (hst : t.stage = 0) :
    stepTask online tr i =
      { store := deleteLog tr.store t.log.id,
        tasks := tr.tasks.set i { t with stage := 2 } } := by
  obtain ⟨tlog, tres, tins, tstage, tsim⟩ := t
  dsimp only at hres hst
  subst hres
  subst hst
  unfold stepTask
  rw [hget]
  rfl

theorem stepTask_check (online : Bool) (tr : TickRun) (i : Nat) (t : PendingTask)
    (e : String) (hget : tr.tasks.get? i = some t) (hres : t.result = some e)
    (hst : t.stage = 0) :
    stepTask online tr i =
      { store := tr.store,
        tasks := tr.tasks.set i
          { t with stage := 1,
                   similar := hasSimilarError tr.store (getErrorType online e)
                     (getErrorCode (getErrorType online e)) "AppComponent" } } := by
  obtain ⟨tlog, tres, tins, tstage, tsim⟩ := t
  dsimp only at hres hst
  subst hres
  subst hst
  unfold stepTask
  rw [hget]
  rfl

theorem stepTask_insert (online : Bool) (tr : TickRun) (i : Nat) (t : PendingTask)
    (e : String) (hget : tr.tasks.get? i = some t) (hres : t.result = some e)
    (hst : t.stage = 1) :
    stepTask online tr i =
      (if t.similar then
        { store := tr.store, tasks := tr.tasks.set i { t with stage := 2 } }
      else
        { store := tr.store ++
            [mkSyncErrorLog (getErrorType online e) (getErrorCode (getErrorType online e))
              t.log.parkingDoorNumber e t.insertAt],
          tasks := tr.tasks.set i { t with stage := 2 } }) := by
  obtain ⟨tlog, tres, tins, tstage, tsim⟩ := t
  dsimp only at hres hst
  subst hres
  subst hst
  unfold stepTask
  rw [hget]
  rfl

theorem initTickRun_stages (now : Nat) (gateway : ExceptionLogRequest → Option String)
    (store : List ExceptionLog) :
    ∀ t ∈ (initTickRun now gateway store).tasks, t.stage ≠ 1 := by
  intro t ht
  unfold initTickRun at ht
  simp only [List.mem_map] at ht
  obtain ⟨p, _, hp⟩ := ht
  rw [← hp]
  simp

theorem stepTaskAtomic_pres (online : Bool) (et c sn : String) (tr : TickRun) (i : Nat)
    (hstage : ∀ t ∈ tr.tasks, t.stage ≠ 1)
    (hcount : tripleCount tr.store et c sn ≤ 1) :
    (∀ t ∈ (stepTaskAtomic online tr i).tasks, t.stage ≠ 1) ∧
    tripleCount (stepTaskAtomic online tr i).store et c sn ≤ 1 := by
  unfold stepTaskAtomic
  cases hget : tr.tasks.get? i with
  | none =>
    rw [stepTask_none online tr i hget, stepTask_none online tr i hget]
    exact ⟨hstage, hcount⟩
  | some t =>
    cases hres : t.result with
    | none =>
      cases hst : t.stage with
      | zero =>
        rw [stepTask_success online tr i t hget hres hst]
        have hget2 : (tr.tasks.set i { t with stage := 2 }).get? i =
            some { t with stage := 2 } :=
          listGet_set_self tr.tasks i _ t hget
        rw [stepTask_done online _ i { t with stage := 2 } 0 hget2 rfl]
        refine ⟨?_, le_trans (tripleCount_deleteLog_le tr.store t.log.id et c sn) hcount⟩
        intro t' ht'
        rcases listMem_set tr.tasks i _ t' ht' with h | h
        · rw [h]; simp
        · exact hstage t' h
      | succ n =>
        cases n with
        | zero => exact absurd hst (hstage t (listGet_mem tr.tasks i t hget))
        | succ m =>
          rw [stepTask_done online tr i t m hget hst, stepTask_done online tr i t m hget hst]
          exact ⟨hstage, hcount⟩
    | some e =>
      cases hst : t.stage with
      | zero =>
        rw [stepTask_check online tr i t e hget hres hst]
        have hget2 : (tr.tasks.set i
            { t with
              stage := 1,
              similar := hasSimilarError tr.store (getErrorType online e)
                (getErrorCode (getErrorType online e)) "AppComponent" }).get? i =
            some { t with
              stage := 1,
              similar := hasSimilarError tr.store (getErrorType online e)
                (getErrorCode (getErrorType online e)) "AppComponent" } :=
          listGet_set_self tr.tasks i _ t hget
        rw [stepTask_insert online _ i
            { t with
              stage := 1,
              similar := hasSimilarError tr.store (getErrorType online e)
                (getErrorCode (getErrorType online e)) "AppComponent" } e hget2 hres rfl]
        by_cases hsim : hasSimilarError tr.store (getErrorType online e)
            (getErrorCode (getErrorType online e)) "AppComponent" = true
        · rw [if_pos hsim]
          refine ⟨?_, hcount⟩
          intro t' ht'
          dsimp only at ht'
          rw [listSet_set] at ht'
          rcases listMem_set tr.tasks i _ t' ht' with h | h
          · rw [h]; simp
          · exact hstage t' h
        · rw [if_neg hsim]
          constructor
          · intro t' ht'
            dsimp only at ht'
            rw [listSet_set] at ht'
            rcases listMem_set tr.tasks i _ t' ht' with h | h
            · rw [h]; simp
            · exact hstage t' h
          · have hps : tr.store ++
                [mkSyncErrorLog (getErrorType online e) (getErrorCode (getErrorType online e))
                  t.log.parkingDoorNumber e t.insertAt] =
                processLog online t.insertAt t.log (some e) tr.store := by
              show _ = if hasSimilarError tr.store (getErrorType online e)
                  (getErrorCode (getErrorType online e)) "AppComponent" = true then tr.store
                else tr.store ++
                  [mkSyncErrorLog (getErrorType online e) (getErrorCode (getErrorType online e))
                    t.log.parkingDoorNumber e t.insertAt]
              rw [if_neg hsim]
            show tripleCount (tr.store ++
              [mkSyncErrorLog (getErrorType online e) (getErrorCode (getErrorType online e))
                t.log.parkingDoorNumber e t.insertAt]) et c sn ≤ 1
            rw [hps]
            exact tripleCount_processLog_le online t.insertAt t.log (some e) tr.store et c sn hcount
      | succ n =>
        cases n with
        | zero => exact absurd hst (hstage t (listGet_mem tr.tasks i t hget))
        | succ m =>
          rw [stepTask_done online tr i t m hget hst, stepTask_done online tr i t m hget hst]
          exact ⟨hstage, hcount⟩

theorem runScheduleAtomic_pres (online : Bool) (et c sn : String) :
    ∀ (sched : List Nat) (tr : TickRun),
      (∀ t ∈ tr.tasks, t.stage ≠ 1) → tripleCount tr.store et c sn ≤ 1 →
      (∀ t ∈ (runScheduleAtomic online sched tr).tasks, t.stage ≠ 1) ∧
      tripleCount (runScheduleAtomic online sched tr).store et c sn ≤ 1
  | [], _, hstage, hcount => ⟨hstage, hcount⟩
  | i :: rest, tr, hstage, hcount => by
    have h1 := stepTaskAtomic_pres online et c sn tr i hstage hcount
    unfold runScheduleAtomic
    rw [List.foldl_cons]
    exact runScheduleAtomic_pres online et c sn rest _ h1.1 h1.2

/-- C2 counterexample: two unsynced records whose sync attempts both fail
with the same classification in one tick; the schedule runs both failure
handlers' dedup checks before either insert — an interleaving the source
admits, since each handler suspends at `await hasSimilarError` before
`await createExceptionLog` — so both checks see no similar record and both
handlers insert, leaving two unsynced records with the
NetworkOfflineError/SYNC_NET_001/AppComponent triple after the tick. -/
theorem C2_cex_interleaved_inserts :
    tripleCount (runSchedule false [0, 1, 0, 1]
        (initTickRun 5 gwReject [storedLog, storedLog2])).store
      "NetworkOfflineError" "SYNC_NET_001" "AppComponent" = 2 ∧
    ¬ (tripleCount (runSchedule false [0, 1, 0, 1]
        (initTickRun 5 gwReject [storedLog, storedLog2])).store
      "NetworkOfflineError" "SYNC_NET_001" "AppComponent" ≤ 1) := by decide

/-- C2 (amended): each failure handler checks the currently-unsynced
records for the (errorType, code, serviceName) triple before inserting and
skips the insert when one exists; consequently, whenever each handler's
dedup check and insert run back-to-back — no other record's outcome
routing interleaved between them, records otherwise routed in any order
across any number of ticks — a store holding at most one unsynced record
with a given triple still holds at most one after every tick.  Because the
source suspends between the check and the insert, interleaved handlers of
two same-triple failures can both pass the check and both insert, so the
bound is conditional on this non-interleaving. -/
theorem C2_dedup_atomic_routing (ticks : List ITickEnv) (store : List ExceptionLog)
    (et c sn : String) (h : tripleCount store et c sn ≤ 1) :
    tripleCount (runInterleavedTicks ticks store) et c sn ≤ 1 := by
  induction ticks generalizing store with
  | nil => exact h
  | cons t ts ih =>
    unfold runInterleavedTicks
    rw [List.foldl_cons]
    exact ih _ ((runScheduleAtomic_pres t.online et c sn t.sched
      (initTickRun t.now t.gateway store) (initTickRun_stages t.now t.gateway store) h).2)

/-- C2 witness: two unsynced records, one offline tick whose failure
handlers run atomically (in reversed order, with redundant picks); the
NetworkOfflineError/SYNC_NET_001/AppComponent triple ends at one record. -/
theorem C2_dedup_atomic_routing_witness :
    tripleCount [storedLog, storedLog2] "NetworkOfflineError" "SYNC_NET_001" "AppComponent"
      ≤ 1 ∧
    tripleCount (runInterleavedTicks
      [{ online := false, now := 5, gateway := gwReject, sched := [1, 0, 1, 5] },
       { online := false, now := 50, gateway := gwReject, sched := [0, 1, 2] }]
      [storedLog, storedLog2])
      "NetworkOfflineError" "SYNC_NET_001" "AppComponent" ≤ 1 :=
  ⟨by decide,
   C2_dedup_atomic_routing
     [{ online := false, now := 5, gateway := gwReject, sched := [1, 0, 1, 5] },
      { online := false, now := 50, gateway := gwReject, sched := [0, 1, 2] }]
     [storedLog, storedLog2] "NetworkOfflineError" "SYNC_NET_001" "AppComponent" (by decide)⟩

theorem idAbsent_deleteLog_self (store : List ExceptionLog) (i : String) :
    idAbsent (deleteLog store i) i := by
  intro l hl
  unfold deleteLog at hl
  rw [List.mem_filter] at hl
  simpa using hl.2

theorem idAbsent_deleteLog (store : List ExceptionLog) (i j : String)
    (h : idAbsent store i) : idAbsent (deleteLog store j) i := by
  intro l hl
  exact h l (List.mem_of_mem_filter hl)

theorem getErrorType_mem (online : Bool) (msg : String) :
    getErrorType online msg ∈ errorKinds := by
  simp only [getErrorType, errorKinds]
  split_ifs <;> simp

theorem idAbsent_processLog (online : Bool) (now : Nat) (log : ExceptionLog)
    (result : Option String) (store : List ExceptionLog) (i : String)
    (hfresh : ∀ et ∈ errorKinds, syncErrorId et now ≠ i)
    (h : idAbsent store i) : idAbsent (processLog online now log result store) i := by
  cases result with
  | none =>
    show idAbsent (deleteLog store log.id) i
    exact idAbsent_deleteLog store i log.id h
  | some errMsg =>
    show idAbsent
      (if hasSimilarError store (getErrorType online errMsg)
          (getErrorCode (getErrorType online errMsg)) "AppComponent" = true then store
       else store ++ [mkSyncErrorLog (getErrorType online errMsg)
          (getErrorCode (getErrorType online errMsg)) log.parkingDoorNumber errMsg now]) i
    split
    · exact h
    · intro l hl
      rw [List.mem_append] at hl
      rcases hl with hl | hl
      · exact h l hl
      · rw [List.mem_singleton] at hl
        subst hl
        exact hfresh _ (getErrorType_mem online errMsg)

theorem idAbsent_syncFold (online : Bool) (now : Nat)
    (gateway : ExceptionLogRequest → Option String) (i : String)
    (hfresh : ∀ et ∈ errorKinds, syncErrorId et now ≠ i) :
    ∀ (pending : List ExceptionLog) (acc : List ExceptionLog × Nat),
      idAbsent acc.1 i →
      idAbsent ((pending.foldl (syncStep online now gateway) acc).1) i
  | [], _, h => h
  | log :: rest, acc, h => by
    rw [List.foldl_cons]
    exact idAbsent_syncFold online now gateway i hfresh rest _
      (idAbsent_processLog online now log _ acc.1 i hfresh h)

theorem idAbsent_checkSyncLog (online : Bool) (now : Nat)
    (gateway : ExceptionLogRequest → Option String) (store : List ExceptionLog)
    (i : String) (hfresh : ∀ et ∈ errorKinds, syncErrorId et now ≠ i)
    (h : idAbsent store i) :
    idAbsent (checkSyncLog online now gateway store).1 i := by
  unfold checkSyncLog
  split
  · exact h
  · exact idAbsent_syncFold online now gateway i hfresh (unsyncedLogs store) (store, 0) h

theorem idAbsent_runSyncTicks :
    ∀ (ticks : List TickEnv) (store : List ExceptionLog) (i : String),
      (∀ t ∈ ticks, ∀ et ∈ errorKinds, syncErrorId et t.now ≠ i) →
      idAbsent store i → idAbsent (runSyncTicks ticks store) i
  | [], _, _, _, h => h
  | t :: ts, store, i, hfresh, h => by
    unfold runSyncTicks
    rw [List.foldl_cons]
    exact idAbsent_runSyncTicks ts _ i
      (fun x hx => hfresh x (List.mem_cons_of_mem t hx))
      (idAbsent_checkSyncLog t.online t.now t.gateway store i
        (hfresh t (List.mem_cons_self t ts)) h)

theorem foldSync_success_absent (online : Bool) (now : Nat)
    (gateway : ExceptionLogRequest → Option String) (r : ExceptionLog)
    (hok : gateway (mkLogRequest now r) = none)
    (hfresh : ∀ et ∈ errorKinds, syncErrorId et now ≠ r.id)
    (l₁ l₂ : List ExceptionLog) (acc : List ExceptionLog × Nat) :
    idAbsent (((l₁ ++ r :: l₂).foldl (syncStep online now gateway) acc).1) r.id := by
  rw [List.foldl_append, List.foldl_cons]
  apply idAbsent_syncFold online now gateway r.id hfresh l₂
  show idAbsent (processLog online now r
    (gateway (mkLogRequest now r)) (l₁.foldl (syncStep online now gateway) acc).1) r.id
  rw [hok]
  exact idAbsent_deleteLog_self _ r.id

/-- C3: when the gateway's create call succeeds for an unsynced record
during a tick, the record is deleted: its id is absent from the store when
the tick completes, and stays absent across every later tick (later ticks
only delete records or insert fresh `sync-error-*` ids, assumed distinct
from the record's id). -/
theorem C3_success_id_absent (online : Bool) (now : Nat)
    (gateway : ExceptionLogRequest → Option String) (store : List ExceptionLog)
    (r : ExceptionLog) (later : List TickEnv)
    (hr : r ∈ unsyncedLogs store)
    (hok : gateway (mkLogRequest now r) = none)
    (hfresh : ∀ et ∈ errorKinds, syncErrorId et now ≠ r.id)
    (hlater : ∀ t ∈ later, ∀ et ∈ errorKinds, syncErrorId et t.now ≠ r.id) :
    idAbsent (checkSyncLog online now gateway store).1 r.id ∧
    idAbsent (runSyncTicks later (checkSyncLog online now gateway store).1) r.id := by
  have habs : idAbsent (checkSyncLog online now gateway store).1 r.id := by
    obtain ⟨l₁, l₂, hsplit⟩ := List.append_of_mem hr
    unfold checkSyncLog
    split
    · next hE =>
      rw [List.isEmpty_iff] at hE
      rw [hE] at hr
      cases hr
    · rw [hsplit]
      exact foldSync_success_absent online now gateway r hok hfresh l₁ l₂ (store, 0)
  exact ⟨habs, idAbsent_runSyncTicks later _ r.id hlater habs⟩

/-- C3 witness: the stored record is accepted by the gateway during an
online tick; its id is gone afterwards and stays gone across a later
failing offline tick. -/
theorem C3_success_id_absent_witness :
    storedLog ∈ unsyncedLogs [storedLog] ∧
    idAbsent (checkSyncLog true 1000 gwAccept [storedLog]).1 storedLog.id ∧
    idAbsent (runSyncTicks [{ online := false, now := 2000, gateway := gwReject }]
      (checkSyncLog true 1000 gwAccept [storedLog]).1) storedLog.id := by
  refine ⟨by decide, ?_⟩
  have h := C3_success_id_absent true 1000 gwAccept [storedLog] storedLog
    [{ online := false, now := 2000, gateway := gwReject }]
    (by decide) rfl (by decide) ?_
  · exact h
  · intro t ht
    rw [List.mem_singleton] at ht
    subst ht
    decide

theorem mapHas_false_not_mem {m : List (String × Wrapper)} {name : String}
    (h : mapHas m name = false) : name ∉ m.map Prod.fst := by
  unfold mapHas at h
  rw [List.any_eq_false] at h
  intro hmem
  rw [List.mem_map] at hmem
  obtain ⟨p, hp, hk⟩ := hmem
  exact h p hp (by simpa using hk)

theorem jobNames_mapSet_has {m : List (String × Wrapper)} {name : String} {w : Wrapper}
    (h : mapHas m name = true) : (mapSet m name w).map Prod.fst = m.map Prod.fst := by
  unfold mapSet
  rw [if_pos h, List.map_map]
  apply List.map_congr_left
  intro p _
  by_cases hp : (p.1 == name) = true
  · simp only [Function.comp, hp, if_true]
    exact (by simpa using hp : p.1 = name).symm
  · simp only [Function.comp]
    rw [if_neg (by simpa using hp)]

theorem jobNames_mapSet_nodup {m : List (String × Wrapper)} (name : String) (w : Wrapper)
    (h : (m.map Prod.fst).Nodup) : ((mapSet m name w).map Prod.fst).Nodup := by
  by_cases hh : mapHas m name = true
  · rw [jobNames_mapSet_has hh]
    exact h
  · have hh' : mapHas m name = false := by simpa using hh
    unfold mapSet
    rw [if_neg (by simp [hh'])]
    rw [List.map_append, List.nodup_append]
    refine ⟨h, by simp, ?_⟩
    intro a ha hb
    simp only [List.map_cons, List.map_nil, List.mem_singleton] at hb
    subst hb
    exact mapHas_false_not_mem hh' ha

theorem jobNames_mapDelete_nodup {m : List (String × Wrapper)} (name : String)
    (h : (m.map Prod.fst).Nodup) : ((mapDelete m name).map Prod.fst).Nodup := by
  unfold mapDelete
  exact h.sublist (List.Sublist.map Prod.fst (List.filter_sublist m))

theorem startJob_jobs_nodup (s : Sched) (name : String)
    (h : (s.jobs.map Prod.fst).Nodup) : ((startJob s name).jobs.map Prod.fst).Nodup := by
  unfold startJob
  split
  · exact h
  · split
    · exact h
    · exact jobNames_mapSet_nodup name _ h

theorem stopJob_jobs_nodup (s : Sched) (name : String)
    (h : (s.jobs.map Prod.fst).Nodup) : ((stopJob s name).jobs.map Prod.fst).Nodup := by
  unfold stopJob
  split
  · exact h
  · split
    · exact h
    · split
      · exact jobNames_mapSet_nodup name _ h
      · exact jobNames_mapSet_nodup name _ h

theorem removeJob_jobs_nodup (s : Sched) (name : String)
    (h : (s.jobs.map Prod.fst).Nodup) : ((removeJob s name).jobs.map Prod.fst).Nodup := by
  unfold removeJob
  split
  · exact jobNames_mapDelete_nodup name (stopJob_jobs_nodup s name h)
  · exact h

theorem initTick_jobs_nodup (s : Sched) (name : String) (mk : Option Nat)
    (res : Option String) (h : (s.jobs.map Prod.fst).Nodup) :
    ((initTick s name mk res).jobs.map Prod.fst).Nodup := by
  unfold initTick
  split
  · exact h
  · split
    · exact stopJob_jobs_nodup s name h
    · split
      · exact jobNames_mapSet_nodup name _ h
      · exact h

theorem scheduleNextS_jobs_nodup (s : Sched) (name : String) (hour minute : Nat)
    (h : (s.jobs.map Prod.fst).Nodup) :
    ((scheduleNextS s name hour minute).jobs.map Prod.fst).Nodup := by
  unfold scheduleNextS
  split
  · exact h
  · exact jobNames_mapSet_nodup name _ h

theorem addIntervalJobS_jobs_nodup (s : Sched) (name : String) (itv : Nat)
    (opts : CronJobOptions) (res : Option String) (h : (s.jobs.map Prod.fst).Nodup) :
    ((addIntervalJobS s name itv opts res).jobs.map Prod.fst).Nodup := by
  unfold addIntervalJobS
  by_cases h1 : mapHas s.jobs name = true <;>
    by_cases h2 : opts.runOnInit = true <;>
      by_cases h3 : opts.autoStart ≠ some false <;>
        simp [h1, h2, h3] <;>
        repeat first
          | apply startJob_jobs_nodup
          | apply initTick_jobs_nodup
          | apply jobNames_mapSet_nodup
          | apply removeJob_jobs_nodup
          | exact h

theorem addDailyJobS_jobs_nodup (s : Sched) (name : String) (hour minute : Nat)
    (opts : CronJobOptions) (h : (s.jobs.map Prod.fst).Nodup) :
    ((addDailyJobS s name hour minute opts).jobs.map Prod.fst).Nodup := by
  unfold addDailyJobS
  by_cases h3 : opts.autoStart ≠ some false <;>
    simp [h3] <;>
    repeat first
      | apply scheduleNextS_jobs_nodup
      | apply jobNames_mapSet_nodup
      | exact h

theorem nextTimerId_stopJob (s : Sched) (name : String) :
    (stopJob s name).nextTimerId = s.nextTimerId := by
  unfold stopJob
  split
  · rfl
  · split
    · rfl
    · split <;> rfl

theorem nextTimerId_removeJob (s : Sched) (name : String) :
    (removeJob s name).nextTimerId = s.nextTimerId := by
  unfold removeJob
  split
  · exact nextTimerId_stopJob s name
  · rfl

theorem nextTimerId_initTick (s : Sched) (name : String) (mk : Option Nat)
    (res : Option String) : (initTick s name mk res).nextTimerId = s.nextTimerId := by
  unfold initTick
  split
  · rfl
  · split
    · exact nextTimerId_stopJob s name
    · split <;> rfl

theorem liveTimers_stopJob_sub (s : Sched) (name : String) (x : Nat)
    (hx : x ∈ (stopJob s name).liveTimers) : x ∈ s.liveTimers := by
  unfold stopJob at hx
  split at hx
  · exact hx
  · split at hx
    · exact hx
    · split at hx
      · exact List.mem_of_mem_filter hx
      · exact hx

theorem liveTimers_initTick_sub (s : Sched) (name : String) (mk : Option Nat)
    (res : Option String) (x : Nat)
    (hx : x ∈ (initTick s name mk res).liveTimers) : x ∈ s.liveTimers := by
  unfold initTick at hx
  split at hx
  · exact hx
  · split at hx
    · exact liveTimers_stopJob_sub s name x hx
    · split at hx
      · exact hx
      · exact hx

theorem liveTimers_startJob (s : Sched) (name : String) (x : Nat)
    (hx : x ∈ (startJob s name).liveTimers) :
    x = s.nextTimerId ∨ x ∈ s.liveTimers := by
  unfold startJob at hx
  split at hx
  · exact Or.inr hx
  · split at hx
    · exact Or.inr hx
    · have hx' : x ∈ s.nextTimerId :: s.liveTimers := hx
      rw [List.mem_cons] at hx'
      exact hx'

theorem stopJob_kills (s : Sched) (name : String) (w : Wrapper) (t : Nat)
    (hw : mapGet s.jobs name = some w) (hrun : w.isRunning = true)
    (hti : w.intervalId = some t) : t ∉ (stopJob s name).liveTimers := by
  unfold stopJob
  split
  · next heq => rw [hw] at heq; cases heq
  · next w' heq =>
    rw [hw] at heq
    injection heq with hww
    subst hww
    split
    · next hnr => rw [hrun] at hnr; simp at hnr
    · split
      · next t' hteq =>
        rw [hti] at hteq
        injection hteq with htt
        subst htt
        intro hmem
        have hmem' : t ∈ List.filter (fun x => !(x == t)) s.liveTimers := hmem
        rw [List.mem_filter] at hmem'
        simp at hmem'
      · next hteq => rw [hti] at hteq; cases hteq

theorem removeJob_kills (s : Sched) (name : String) (w : Wrapper) (t : Nat)
    (hw : mapGet s.jobs name = some w) (hrun : w.isRunning = true)
    (hti : w.intervalId = some t) : t ∉ (removeJob s name).liveTimers := by
  unfold removeJob
  rw [if_pos (mapGet_some_mapHas hw)]
  exact stopJob_kills s name w t hw hrun hti

theorem addIntervalJobS_kills (s : Sched) (name : String) (itv : Nat)
    (opts : CronJobOptions) (res : Option String) (w : Wrapper) (t : Nat)
    (hw : mapGet s.jobs name = some w) (hrun : w.isRunning = true)
    (hti : w.intervalId = some t) (htid : t < s.nextTimerId) :
    t ∉ (addIntervalJobS s name itv opts res).liveTimers := by
  have hkill := removeJob_kills s name w t hw hrun hti
  have hrid := nextTimerId_removeJob s name
  unfold addIntervalJobS
  rw [if_pos (mapGet_some_mapHas hw)]
  by_cases h2 : opts.runOnInit = true <;> by_cases h3 : opts.autoStart ≠ some false <;>
    simp [h2, h3] <;> intro hmem
  · rcases liveTimers_startJob _ name t hmem with he | hin
    · rw [nextTimerId_initTick] at he
      dsimp only at he
      rw [hrid] at he
      omega
    · have hin2 := liveTimers_initTick_sub _ name opts.maxRuns res t hin
      exact hkill hin2
  · have hin2 := liveTimers_initTick_sub _ name opts.maxRuns res t hmem
    exact hkill hin2
  · rcases liveTimers_startJob _ name t hmem with he | hin
    · dsimp only at he
      rw [hrid] at he
      omega
    · exact hkill hin
  · exact hkill hmem

theorem startJob_set_started (s : Sched) (name : String) (w0 : Wrapper)
    (hget : mapGet s.jobs name = some w0) (hnr : w0.isRunning = false) :
    mapGet (startJob s name).jobs name =
      some { w0 with
        intervalId := some s.nextTimerId, isRunning := true,
        nextRun := some (s.now + w0.interval) } := by
  unfold startJob
  split
  · next heq => rw [hget] at heq; cases heq
  · next w' heq =>
    rw [hget] at heq
    injection heq with hww
    subst hww
    split
    · next hr => rw [hnr] at hr; simp at hr
    · exact mapGet_mapSet_self _ _ _

theorem stopJob_running_clears (s : Sched) (name : String) (w : Wrapper)
    (hw : mapGet s.jobs name = some w) (hrun : w.isRunning = true) :
    mapGet (stopJob s name).jobs name =
      some { w with intervalId := none, isRunning := false, nextRun := none } := by
  unfold stopJob
  split
  · next heq => rw [hw] at heq; cases heq
  · next w' heq =>
    rw [hw] at heq
    injection heq with hww
    subst hww
    split
    · next hnr => rw [hrun] at hnr; simp at hnr
    · split
      · next t' hteq => exact mapGet_mapSet_self _ _ _
      · next hteq =>
        have hrec : ({ w with isRunning := false, nextRun := none } : Wrapper) =
            { w with intervalId := none, isRunning := false, nextRun := none } := by
          cases w
          simp_all
        rw [show (mapSet s.jobs name { w with isRunning := false, nextRun := none })
            = mapSet s.jobs name
                { w with intervalId := none, isRunning := false, nextRun := none }
          from by rw [hrec]]
        exact mapGet_mapSet_self _ _ _

theorem addIntervalJobS_reg_good (s : Sched) (name : String) (itv : Nat)
    (opts : CronJobOptions) (res : Option String) (hro : opts.runOnInit = false) :
    ∃ w, mapGet (addIntervalJobS s name itv opts res).jobs name = some w ∧
      (w.isRunning = false → w.nextRun = none ∧ w.intervalId = none) := by
  unfold addIntervalJobS
  by_cases h3 : opts.autoStart ≠ some false <;> simp [hro, h3]
  · refine ⟨_, startJob_set_started _ name
      { interval := itv, runCount := 0, lastRun := none, nextRun := none,
        isRunning := false, intervalId := none } (mapGet_mapSet_self _ _ _) rfl, ?_⟩
    intro habs
    simp at habs
  · exact ⟨_, mapGet_mapSet_self _ _ _, fun _ => ⟨rfl, rfl⟩⟩

/-- C8 (amended): `addIntervalJob` on an already-registered name fully
stops and removes the existing job before registering the new one — in
particular the replaced running job's timer is no longer live afterwards —
and both registration operations preserve uniqueness of job names in the
registry.  `addDailyJob`, however, performs no existing-name check (see
the counterexample), so the claim holds only for interval registration. -/
theorem C8_replace_semantics (s : Sched) (name : String) (itv : Nat)
    (opts : CronJobOptions) (res : Option String) (w : Wrapper) (t : Nat)
    (hw : mapGet s.jobs name = some w) (hrun : w.isRunning = true)
    (hti : w.intervalId = some t) (htid : t < s.nextTimerId) :
    t ∉ (addIntervalJobS s name itv opts res).liveTimers ∧
    (∀ (s2 : Sched) (n2 : String) (i2 : Nat) (o2 : CronJobOptions) (r2 : Option String),
      (s2.jobs.map Prod.fst).Nodup →
      ((addIntervalJobS s2 n2 i2 o2 r2).jobs.map Prod.fst).Nodup) ∧
    (∀ (s2 : Sched) (n2 : String) (h2 m2 : Nat) (o2 : CronJobOptions),
      (s2.jobs.map Prod.fst).Nodup →
      ((addDailyJobS s2 n2 h2 m2 o2).jobs.map Prod.fst).Nodup) :=
  ⟨addIntervalJobS_kills s name itv opts res w t hw hrun hti htid,
   fun s2 n2 i2 o2 r2 h2 => addIntervalJobS_jobs_nodup s2 n2 i2 o2 r2 h2,
   fun s2 n2 h2 m2 o2 hn => addDailyJobS_jobs_nodup s2 n2 h2 m2 o2 hn⟩

/-- C8 witness: replacing the running interval job "j" (timer 1) by a new
interval job under the same name leaves timer 1 dead. -/
theorem C8_replace_semantics_witness :
    1 ∉ (addIntervalJobS (addIntervalJobS (schedInit 0) "j" 1000 {} none)
          "j" 2000 {} none).liveTimers :=
  (C8_replace_semantics (addIntervalJobS (schedInit 0) "j" 1000 {} none) "j" 2000 {} none
    { interval := 1000, runCount := 0, lastRun := none, nextRun := some 1000,
      isRunning := true, intervalId := some 1 } 1
    (by decide) rfl rfl (by decide)).1

/-- C9 (amended): stopping a running job sets `running = false`, clears
`nextRunAt` and the timer handle, and removes the job's timer from the
live pool; and an interval job registered without `runOnInit` satisfies
`running = false → nextRunAt = null` (with the timer handle also null).
A daily job registered with `autoStart = false` violates the claim's
registration case (see the counterexample), and stopping an
already-stopped job is a warning no-op that clears nothing. -/
theorem C9_stop_and_registration :
    (∀ (s : Sched) (name : String) (w : Wrapper),
      mapGet s.jobs name = some w → w.isRunning = true →
      mapGet (stopJob s name).jobs name =
        some { w with intervalId := none, isRunning := false, nextRun := none } ∧
      (∀ t, w.intervalId = some t → t ∉ (stopJob s name).liveTimers)) ∧
    (∀ (s : Sched) (name : String) (itv : Nat) (opts : CronJobOptions)
       (res : Option String),
      opts.runOnInit = false →
      ∃ w, mapGet (addIntervalJobS s name itv opts res).jobs name = some w ∧
        (w.isRunning = false → w.nextRun = none ∧ w.intervalId = none)) :=
  ⟨fun s name w hw hrun =>
    ⟨stopJob_running_clears s name w hw hrun,
     fun t ht => stopJob_kills s name w t hw hrun ht⟩,
   fun s name itv opts res hro => addIntervalJobS_reg_good s name itv opts res hro⟩

/-- C9 witness: stopping the running registered job "j" clears its
`nextRun`, `intervalId` and `running` flag and kills timer 1. -/
theorem C9_stop_and_registration_witness :
    mapGet (stopJob (addIntervalJobS (schedInit 0) "j" 1000 {} none) "j").jobs "j" =
      some { interval := 1000, runCount := 0, lastRun := none, nextRun := none,
             isRunning := false, intervalId := none } ∧
    1 ∉ (stopJob (addIntervalJobS (schedInit 0) "j" 1000 {} none) "j").liveTimers :=
  have h := C9_stop_and_registration.1 (addIntervalJobS (schedInit 0) "j" 1000 {} none) "j"
    { interval := 1000, runCount := 0, lastRun := none, nextRun := some 1000,
      isRunning := true, intervalId := some 1 } (by decide) rfl
  ⟨h.1, h.2 1 rfl⟩

/-- C10 witness: `maxRuns = 2`, `runOnInit = true`, two succeeding
periodic ticks — at most one further success happens. -/
theorem C10_runOnInit_counts_witness :
    (1 ≤ 2) ∧
    ((registerIntervalJob 1000
        { autoStart := none, runOnInit := true, maxRuns := some 2, hasOnError := false }
        0 none).1.runCount = 1 ∧
     (registerIntervalJob 1000
        { autoStart := none, runOnInit := true, maxRuns := some 2, hasOnError := false }
        0 none).2.invoked = true ∧
     (runIntervalTicks [(1000, none), (2000, none)] (registerIntervalJob 1000
        { autoStart := none, runOnInit := true, maxRuns := some 2, hasOnError := false }
        0 none).1).2.successes + 1 ≤ 2) :=
  ⟨by decide, C10_runOnInit_counts 2 (by decide) 1000 0 none false [(1000, none), (2000, none)]⟩

end Rx
